import Mathlib

/-!
Shallow embedding of the stdio slice of the repository:
standard-stream raw adapters (`handle_ebadf`), thread-local output capture
(`set_output_capture`, `print_to`), the stdout shutdown hook (`cleanup`),
the console test reporter fold (`handle_test_result`), the tidy external
dependency check (`extdeps::check`), and the BPF target stubs.
Bytes are modelled as `Nat`, byte buffers as `List Nat` (or `String` where
the source only moves text around), OS results as `Except`.
-/

set_option maxHeartbeats 1000000

abbrev Byte := Nat

/-- An OS-level I/O error.  `ebadf` marks the platform's bad-descriptor
error class; `msg` is its display text, used in panic messages.
The classifier itself lives in the platform `sys::stdio` module, which is
not part of the reviewed sources; only the boolean outcome matters here. -/
structure IOErr where
  ebadf : Bool
  msg : String
deriving DecidableEq, Repr

namespace Stdio

/-- `stdio::is_ebadf`: recognises the bad-descriptor error class.
Modelled from the spec: a "descriptor not open" condition from the OS is
recognised as a specific, platform-defined error code class (the platform
`sys::stdio::is_ebadf` implementation is outside the reviewed sources). -/
def is_ebadf (e : IOErr) : Bool := e.ebadf

/-- `handle_ebadf` from `library/std/src/io/stdio.rs`: converts a
bad-descriptor error into `Ok(default)` and leaves every other result
unchanged. -/
def handle_ebadf {T : Type} (r : Except IOErr T) (default : T) : Except IOErr T :=
  match r with
  | .error e => if is_ebadf e then .ok default else .error e
  | r => r

/-- `impl Read for StdinRaw`: `read` delegates to the OS read (whose result
is the `osResult` argument) and pipes it through `handle_ebadf` with
default `0`. -/
def StdinRaw.read (osResult : Except IOErr Nat) : Except IOErr Nat :=
  handle_ebadf osResult 0

/-- `impl Write for StdoutRaw`: `write` delegates to the OS write and pipes
the result through `handle_ebadf` with default `buf.len()`. -/
def StdoutRaw.write (buf : List Byte) (osResult : Except IOErr Nat) : Except IOErr Nat :=
  handle_ebadf osResult buf.length

/-- `impl Write for StdoutRaw`: `write_vectored` uses the summed length of
all chunks as the `handle_ebadf` default. -/
def StdoutRaw.write_vectored (bufs : List (List Byte)) (osResult : Except IOErr Nat) :
    Except IOErr Nat :=
  let total := (bufs.map List.length).sum
  handle_ebadf osResult total

/-- `impl Write for StdoutRaw`: `flush` pipes the OS flush result through
`handle_ebadf` with default `()`. -/
def StdoutRaw.flush (osResult : Except IOErr Unit) : Except IOErr Unit :=
  handle_ebadf osResult ()

/-- `impl Write for StderrRaw::write`, same shape as stdout. -/
def StderrRaw.write (buf : List Byte) (osResult : Except IOErr Nat) : Except IOErr Nat :=
  handle_ebadf osResult buf.length

end Stdio

/-- A poisoning mutex protecting a value of type `α`: `poisoned` records
that a prior holder panicked while holding the lock. -/
structure PMutex (α : Type) where
  poisoned : Bool
  val : α
deriving DecidableEq, Repr

/-- A `PoisonError` carrying the guard, as returned by a poisoned lock. -/
structure PoisonError (α : Type) where
  guard : α
deriving DecidableEq, Repr

/-- `Mutex::lock`: grants the protected value, wrapped in a `PoisonError`
when a prior holder panicked. -/
def PMutex.lock {α : Type} (m : PMutex α) : Except (PoisonError α) α :=
  if m.poisoned then .error ⟨m.val⟩ else .ok m.val

/-- `PoisonError::into_inner`: recovers the guard regardless of poison. -/
def PoisonError.into_inner {α : Type} (e : PoisonError α) : α := e.guard

/-- The `r.unwrap_or_else(|e| e.into_inner())` idiom used throughout
`stdio.rs` to ignore lock poisoning. -/
def unwrapOrElseIntoInner {α : Type} (r : Except (PoisonError α) α) : α :=
  match r with
  | .ok v => v
  | .error e => e.into_inner

/-- `type LocalStream = Arc<Mutex<Vec<u8>>>`: the in-memory capture sink. -/
abbrev LocalStream := PMutex (List Byte)

/-- The per-thread capture state: the process-wide `OUTPUT_CAPTURE_USED`
flag as observed by this thread, the `OUTPUT_CAPTURE` thread-local cell,
and whether the thread-local storage is still alive (`try_with`
succeeds). -/
structure ThreadState where
  captureUsed : Bool
  slot : Option LocalStream
  tlsAlive : Bool
deriving DecidableEq, Repr

/-- `Cell::take` on `OUTPUT_CAPTURE`: removes the slot's contents,
returning them together with the state whose slot is empty. -/
def ThreadState.take (s : ThreadState) : Option LocalStream × ThreadState :=
  (s.slot, { s with slot := none })

/-- `Cell::set` on `OUTPUT_CAPTURE`. -/
def ThreadState.set (s : ThreadState) (v : Option LocalStream) : ThreadState :=
  { s with slot := v }

/-- The outcome of a print primitive: normal return, or a panic with the
given message. -/
inductive PrintOutcome where
  | ok
  | panicked (msg : String)
deriving DecidableEq, Repr

/-- The relevant process-wide "capture never installed" invariant: while
`OUTPUT_CAPTURE_USED` is false no thread's slot holds a sink (the flag is
stored before any sink is installed and never cleared). -/
def CaptureInv (s : ThreadState) : Prop := s.captureUsed = false → s.slot = none

namespace Stdio

/-- `set_output_capture` from `stdio.rs`: fast path returning `None` when
the sink is `None` and `OUTPUT_CAPTURE_USED` was never set; otherwise
stores the flag and replaces the thread-local slot, returning the old
contents. -/
def set_output_capture (sink : Option LocalStream) (s : ThreadState) :
    Option LocalStream × ThreadState :=
  if sink.isNone && !s.captureUsed then
    (none, s)
  else
    (s.slot, { s with captureUsed := true, slot := sink })

/-- The global-stream fallback tail of `print_to`:
`if let Err(e) = global_s().write_fmt(args) { panic!("failed printing to {}: {}", label, e) }`.
`g` is the global stream's bytes so far; `gErr` is the error the global
write would report, if any. -/
def writeToGlobal (args : List Byte) (s : ThreadState) (g : List Byte)
    (gErr : Option IOErr) (label : String) : ThreadState × List Byte × PrintOutcome :=
  match gErr with
  | some e => (s, g, .panicked ("failed printing to " ++ label ++ ": " ++ e.msg))
  | none => (s, g ++ args, .ok)

/-- `print_to` from `stdio.rs`: when `OUTPUT_CAPTURE_USED` is set and the
thread-local storage is alive, take the sink out of the slot, write the
formatted bytes into it ignoring lock poison, and put it back; in every
other case fall through to the global stream. -/
def print_to (args : List Byte) (s : ThreadState) (g : List Byte)
    (gErr : Option IOErr) (label : String) : ThreadState × List Byte × PrintOutcome :=
  if s.captureUsed && s.tlsAlive then
    match s.take with
    | (some w, s1) =>
      let guard := unwrapOrElseIntoInner w.lock
      (s1.set (some { w with val := guard ++ args }), g, .ok)
    | (none, s1) => writeToGlobal args s1 g gErr label
  else
    writeToGlobal args s g gErr label

/-- The unoptimised reference algorithm compared against in claim C5: the
same drain-into-sink logic but always consulting the thread-local slot,
with no `OUTPUT_CAPTURE_USED` fast path. -/
def print_to_noflag (args : List Byte) (s : ThreadState) (g : List Byte)
    (gErr : Option IOErr) (label : String) : ThreadState × List Byte × PrintOutcome :=
  if s.tlsAlive then
    match s.take with
    | (some w, s1) =>
      let guard := unwrapOrElseIntoInner w.lock
      (s1.set (some { w with val := guard ++ args }), g, .ok)
    | (none, s1) => writeToGlobal args s1 g gErr label
  else
    writeToGlobal args s g gErr label

/-- The unoptimised reference for `set_output_capture` in claim C5:
unconditionally store the flag and replace the slot's contents. -/
def set_output_capture_noflag (sink : Option LocalStream) (s : ThreadState) :
    Option LocalStream × ThreadState :=
  (s.slot, { s with captureUsed := true, slot := sink })

/-- `_print`: `print_to(args, stdout, "stdout")`. -/
def underscorePrint (args : List Byte) (s : ThreadState) (g : List Byte)
    (gErr : Option IOErr) : ThreadState × List Byte × PrintOutcome :=
  print_to args s g gErr "stdout"

/-- `_eprint`: `print_to(args, stderr, "stderr")`. -/
def underscoreEprint (args : List Byte) (s : ThreadState) (g : List Byte)
    (gErr : Option IOErr) : ThreadState × List Byte × PrintOutcome :=
  print_to args s g gErr "stderr"

end Stdio

/-- The protected stdin state: a `BufReader<StdinRaw>` modelled as the
bytes currently buffered and not yet consumed. -/
structure StdinBuf where
  buffered : List Byte
deriving DecidableEq, Repr

/-- Modelled from the spec: `BufRead::read_line` (outside the reviewed
sources) reads bytes up to and including the next line terminator,
appending them to the caller-supplied growable buffer, and returns the
count of bytes appended. -/
def StdinBuf.read_line (b : StdinBuf) (buf : List Byte) : Nat × List Byte × StdinBuf :=
  match b.buffered.findIdx? (fun x => x = 10) with
  | some i =>
    let taken := b.buffered.take (i + 1)
    (taken.length, buf ++ taken, ⟨b.buffered.drop (i + 1)⟩)
  | none => (b.buffered.length, buf ++ b.buffered, ⟨[]⟩)

/-- The `Stdin` handle: a reference to the global
`Mutex<BufReader<StdinRaw>>`. -/
structure Stdin where
  inner : PMutex StdinBuf
deriving DecidableEq, Repr

/-- `Stdin::lock`: `self.inner.lock().unwrap_or_else(|e| e.into_inner())` —
the guard is granted even when the mutex is poisoned. -/
def Stdin.lock (stdin : Stdin) : StdinBuf :=
  unwrapOrElseIntoInner stdin.inner.lock

/-- `Stdin::read_line`: `self.lock().read_line(buf)`. -/
def Stdin.read_line (stdin : Stdin) (buf : List Byte) : Nat × List Byte × StdinBuf :=
  (stdin.lock).read_line buf

/-- A `LineWriter<StdoutRaw>`: its buffering capacity and currently
buffered bytes.  `LineWriter::with_capacity(0, stdout_raw())` has capacity
0 and an empty buffer. -/
structure LineWriter where
  capacity : Nat
  buffer : List Byte
deriving DecidableEq, Repr

/-- `LineWriter::with_capacity(cap, stdout_raw())`. -/
def LineWriter.with_capacity (cap : Nat) : LineWriter := ⟨cap, []⟩

/-- The process-wide stdio state as seen by the shutdown hook: the lazily
initialised `STDOUT` cell (`none` = `STDOUT.get()` returns `None`),
whether its reentrant lock is currently held elsewhere (`try_lock` would
fail), and the remaining global stdio state, carried to express the frame
property of claim C6. -/
structure ProcessState where
  stdoutCell : Option LineWriter
  stdoutLocked : Bool
  stderrBytes : List Byte
  stdinState : StdinBuf
  thread : ThreadState
deriving DecidableEq, Repr

namespace Stdio

/-- `cleanup` from `stdio.rs`: if `STDOUT` was initialised and its
non-blocking `try_lock` succeeds, replace the line writer by one with zero
buffering capacity; otherwise do nothing. -/
def cleanup (p : ProcessState) : ProcessState :=
  match p.stdoutCell with
  | none => p
  | some _ =>
    if p.stdoutLocked then p
    else { p with stdoutCell := some (LineWriter.with_capacity 0) }

end Stdio

/-- A test's identity (`TestDesc`), reduced to its name. -/
structure TestDesc where
  name : String
deriving DecidableEq, Repr

/-- The benchmark summary statistics consulted by `handle_test_result`
(`bs.ns_iter_summ.median`, `.max`, `.min`). -/
structure BenchSamples where
  median : Nat
  max : Nat
  min : Nat
deriving DecidableEq, Repr

/-- `TestResult` from the test crate. -/
inductive TestResult where
  | trOk
  | trFailed
  | trFailedMsg (msg : String)
  | trIgnored
  | trAllowedFail
  | trBench (bs : BenchSamples)
  | trTimedFail
deriving DecidableEq, Repr

/-- A per-test completion event (`CompletedTest`): identity, terminal
result, captured output (bytes modelled as a string). -/
structure CompletedTest where
  desc : TestDesc
  result : TestResult
  stdout : String
deriving DecidableEq, Repr

/-- `ConsoleTestState` from `console.rs`, restricted to the counters,
metric map and category lists that `handle_test_result` touches. -/
structure ConsoleTestState where
  total : Nat
  passed : Nat
  failed : Nat
  ignored : Nat
  allowed_fail : Nat
  filtered_out : Nat
  measured : Nat
  metrics : List (String × Nat × Nat)
  failures : List (TestDesc × String)
  not_failures : List (TestDesc × String)
  time_failures : List (TestDesc × String)
deriving DecidableEq, Repr

namespace Console

/-- `ConsoleTestState::new`: all counters zero, all lists empty. -/
def newState : ConsoleTestState :=
  ⟨0, 0, 0, 0, 0, 0, 0, [], [], [], []⟩

/-- `ConsoleTestState::current_test_count`. -/
def current_test_count (st : ConsoleTestState) : Nat :=
  st.passed + st.failed + st.ignored + st.measured + st.allowed_fail

/-- `MetricMap::insert_metric`: record a (name, value, noise) entry. -/
def insert_metric (metrics : List (String × Nat × Nat)) (name : String)
    (value noise : Nat) : List (String × Nat × Nat) :=
  (name, value, noise) :: metrics

/-- `handle_test_result` from `console.rs`. -/
def handle_test_result (st : ConsoleTestState) (c : CompletedTest) : ConsoleTestState :=
  match c.result with
  | .trOk =>
    { st with passed := st.passed + 1,
              not_failures := st.not_failures ++ [(c.desc, c.stdout)] }
  | .trIgnored => { st with ignored := st.ignored + 1 }
  | .trAllowedFail => { st with allowed_fail := st.allowed_fail + 1 }
  | .trBench bs =>
    { st with metrics := insert_metric st.metrics c.desc.name bs.median (bs.max - bs.min),
              measured := st.measured + 1 }
  | .trFailed =>
    { st with failed := st.failed + 1,
              failures := st.failures ++ [(c.desc, c.stdout)] }
  | .trFailedMsg msg =>
    { st with failed := st.failed + 1,
              failures := st.failures ++ [(c.desc, c.stdout ++ "note: " ++ msg)] }
  | .trTimedFail =>
    { st with failed := st.failed + 1,
              time_failures := st.time_failures ++ [(c.desc, c.stdout)] }

end Console

/-- `TestEvent` from the test crate's event stream. -/
inductive TestEvent where
  | teFiltered (tests : List TestDesc)
  | teFilteredOut (n : Nat)
  | teWait (t : TestDesc)
  | teTimeout (t : TestDesc)
  | teResult (c : CompletedTest)
deriving DecidableEq, Repr

namespace Console

/-- `on_test_event` from `console.rs`, restricted to its state updates
(the formatter output calls carry no state). -/
def on_test_event (st : ConsoleTestState) (ev : TestEvent) : ConsoleTestState :=
  match ev with
  | .teFiltered ts => { st with total := ts.length }
  | .teFilteredOut n => { st with filtered_out := n }
  | .teWait _ => st
  | .teTimeout _ => st
  | .teResult c => handle_test_result st c

/-- The `assert!(st.current_test_count() == st.total)` check at the end of
`run_tests_console`. -/
def run_assertion (st : ConsoleTestState) : Prop :=
  current_test_count st = st.total

end Console

namespace Extdeps

/-- `ALLOWED_SOURCES` from `tidy/src/extdeps.rs`, verbatim (the values in
`Cargo.lock` carry surrounding double quotes). -/
def ALLOWED_SOURCES : List String :=
  ["\"registry+https://github.com/rust-lang/crates.io-index\"",
   "\"git+https://github.com/solana-labs/compiler-builtins?tag=bpf-tools-v1.18#37b1868dc9927eb713ff05c53a916a6d07dd69a4\""]

/-- `str::split_once(c)` at the level of character lists: splits around the
first occurrence of `c`, or `none` when `c` does not occur. -/
def splitOnceChar (c : Char) : List Char → Option (List Char × List Char)
  | [] => none
  | x :: xs =>
    if x = c then some ([], xs)
    else
      match splitOnceChar c xs with
      | none => none
      | some (a, b) => some (x :: a, b)

/-- `str::trim` at the level of character lists: strip whitespace from
both ends. -/
def trimChars (cs : List Char) : List Char :=
  ((cs.dropWhile Char.isWhitespace).reverse.dropWhile Char.isWhitespace).reverse

/-- The loop body of `extdeps::check` for one line of `Cargo.lock`: lines
not starting with `source = ` are skipped; otherwise the text after the
first `=` is trimmed and an `invalid source` tidy error is reported unless
it is allowed.  Returns the error this line produces, if any. -/
def checkLine (line : List Char) : Option String :=
  if ("source = ".data).isPrefixOf line then
    match splitOnceChar '=' line with
    | some (_, rest) =>
      let source := String.mk (trimChars rest)
      if ALLOWED_SOURCES.contains source then none
      else some ("invalid source: " ++ source)
    | none => none
  else none

/-- `extdeps::check` over the lines of the workspace `Cargo.lock`: the
list of tidy errors reported.  The `bad` flag ends up set iff this list is
nonempty. -/
def check (cargoLockLines : List (List Char)) : List String :=
  cargoLockLines.filterMap checkLine

end Extdeps

namespace Bpf

/-- `sys::sol_log` on the BPF target: forwards a message to the platform
logger, modelled as appending it to the log. -/
def sol_log (log : List (List Byte)) (message : List Byte) : List (List Byte) :=
  log ++ [message]

/-- BPF `impl Read for Stdin::read`: `Ok(0)`, buffer untouched. -/
def Stdin.read (buf : List Byte) : Except IOErr Nat × List Byte :=
  (.ok 0, buf)

/-- BPF `Stdin::read_vectored`: `Ok(0)`. -/
def Stdin.read_vectored (bufs : List (List Byte)) : Except IOErr Nat × List (List Byte) :=
  (.ok 0, bufs)

/-- BPF `Stdin::read_to_end`: `Ok(0)`, buffer untouched. -/
def Stdin.read_to_end (buf : List Byte) : Except IOErr Nat × List Byte :=
  (.ok 0, buf)

/-- BPF `Stdin::read_to_string`: `Ok(0)`, buffer untouched. -/
def Stdin.read_to_string (buf : String) : Except IOErr Nat × String :=
  (.ok 0, buf)

/-- BPF `Stdin::read_exact`: `Ok(())`, buffer untouched. -/
def Stdin.read_exact (buf : List Byte) : Except IOErr Unit × List Byte :=
  (.ok (), buf)

/-- BPF `impl Write for Stdout::write`: logs the buffer via `sol_log` and
returns `Ok(buf.len())`. -/
def Stdout.write (log : List (List Byte)) (buf : List Byte) :
    Except IOErr Nat × List (List Byte) :=
  (.ok buf.length, sol_log log buf)

/-- BPF `Stdout::write_vectored`: `Ok(0)`, nothing logged. -/
def Stdout.write_vectored (log : List (List Byte)) (_bufs : List (List Byte)) :
    Except IOErr Nat × List (List Byte) :=
  (.ok 0, log)

/-- BPF `Stdout::flush`: `Ok(())`. -/
def Stdout.flush (log : List (List Byte)) : Except IOErr Unit × List (List Byte) :=
  (.ok (), log)

/-- BPF `Stdout::write_all`: logs the buffer and returns `Ok(())`. -/
def Stdout.write_all (log : List (List Byte)) (buf : List Byte) :
    Except IOErr Unit × List (List Byte) :=
  (.ok (), sol_log log buf)

/-- BPF `Stdout::write_fmt`: discards its arguments and returns `Ok(())`. -/
def Stdout.write_fmt (log : List (List Byte)) (_args : List Byte) :
    Except IOErr Unit × List (List Byte) :=
  (.ok (), log)

/-- BPF `impl Write for Stderr::write`: same shape as stdout. -/
def Stderr.write (log : List (List Byte)) (buf : List Byte) :
    Except IOErr Nat × List (List Byte) :=
  (.ok buf.length, sol_log log buf)

/-- BPF `Stderr::write_vectored`: `Ok(0)`, nothing logged. -/
def Stderr.write_vectored (log : List (List Byte)) (_bufs : List (List Byte)) :
    Except IOErr Nat × List (List Byte) :=
  (.ok 0, log)

/-- BPF `Stderr::write_fmt`: discards its arguments and returns `Ok(())`. -/
def Stderr.write_fmt (log : List (List Byte)) (_args : List Byte) :
    Except IOErr Unit × List (List Byte) :=
  (.ok (), log)

/-- BPF `set_output_capture`: always returns `None`, ignoring the sink. -/
def set_output_capture (_sink : Option LocalStream) : Option LocalStream :=
  none

end Bpf

/-- Claim C1: for every raw standard-stream operation a bad-descriptor OS
error is converted into that operation's success value (read: `Ok 0`;
write of a length-`N` buffer: `Ok N`; vectored write: `Ok` of the summed
chunk lengths; flush: `Ok ()`), and every other result is returned
unchanged by `handle_ebadf`. -/
theorem C1_handle_ebadf_conversion :
    (∀ e : IOErr, Stdio.is_ebadf e = true →
      Stdio.StdinRaw.read (.error e) = .ok 0) ∧
    (∀ (e : IOErr) (buf : List Byte), Stdio.is_ebadf e = true →
      Stdio.StdoutRaw.write buf (.error e) = .ok buf.length) ∧
    (∀ (e : IOErr) (bufs : List (List Byte)), Stdio.is_ebadf e = true →
      Stdio.StdoutRaw.write_vectored bufs (.error e) = .ok ((bufs.map List.length).sum)) ∧
    (∀ e : IOErr, Stdio.is_ebadf e = true →
      Stdio.StdoutRaw.flush (.error e) = .ok ()) ∧
    (∀ (T : Type) (r : Except IOErr T) (d : T),
      (∀ e : IOErr, r = .error e → Stdio.is_ebadf e = false) →
      Stdio.handle_ebadf r d = r) := by
  refine ⟨?_, ?_, ?_, ?_, ?_⟩
  · intro e he
    simp [Stdio.StdinRaw.read, Stdio.handle_ebadf, he]
  · intro e buf he
    simp [Stdio.StdoutRaw.write, Stdio.handle_ebadf, he]
  · intro e bufs he
    simp [Stdio.StdoutRaw.write_vectored, Stdio.handle_ebadf, he]
  · intro e he
    simp [Stdio.StdoutRaw.flush, Stdio.handle_ebadf, he]
  · intro T r d h
    cases r with
    | ok v => rfl
    | error e =>
      have := h e rfl
      simp [Stdio.handle_ebadf, this]

/-- Concrete instantiation of C1: a bad-descriptor write of a 3-byte buffer
claims 3 bytes written, and a non-ebadf error passes through unchanged. -/
theorem C1_witness :
    Stdio.StdoutRaw.write [1, 2, 3] (.error ⟨true, "ebadf"⟩) = .ok 3 ∧
    Stdio.handle_ebadf (T := Nat) (.error ⟨false, "broken pipe"⟩) 0 =
      .error ⟨false, "broken pipe"⟩ := by
  constructor
  · exact C1_handle_ebadf_conversion.2.1 ⟨true, "ebadf"⟩ [1, 2, 3] rfl
  · exact C1_handle_ebadf_conversion.2.2.2.2 Nat (.error ⟨false, "broken pipe"⟩) 0
      (by intro e he; cases he; rfl)

/-- Locking with `unwrap_or_else(|e| e.into_inner())` always yields the
protected value, poisoned or not. -/
theorem lock_ignore_poison {α : Type} (m : PMutex α) :
    unwrapOrElseIntoInner m.lock = m.val := by
  cases hm : m.poisoned <;>
    simp [unwrapOrElseIntoInner, PMutex.lock, hm, PoisonError.into_inner]

/-- Re-setting an already-empty slot leaves the state unchanged. -/
theorem threadState_slot_none_eta (s : ThreadState) (h : s.slot = none) :
    { s with slot := none } = s := by
  cases s
  simp_all

/-- Claim C2: for every thread, installing an in-memory capture sink via
`set_output_capture` and then performing a print writes the formatted
bytes entirely into that sink, with zero bytes reaching the real global
stream for that call; and `set_output_capture` always returns the sink
previously installed on the calling thread (`none` if none was). -/
theorem C2_capture_intercepts_print :
    (∀ (s : ThreadState) (w : LocalStream) (args g : List Byte)
       (gErr : Option IOErr) (label : String),
      s.tlsAlive = true →
      Stdio.print_to args ((Stdio.set_output_capture (some w) s).2) g gErr label =
        ({ s with captureUsed := true, slot := some { w with val := w.val ++ args } },
          g, .ok)) ∧
    (∀ (s : ThreadState) (sink : Option LocalStream),
      CaptureInv s → (Stdio.set_output_capture sink s).1 = s.slot) := by
  constructor
  · intro s w args g gErr label halive
    cases s with
    | mk cu slot alive =>
      simp only [ThreadState.tlsAlive] at halive
      subst halive
      simp [Stdio.set_output_capture, Stdio.print_to, ThreadState.take,
        ThreadState.set, lock_ignore_poison]
  · intro s sink hInv
    by_cases h : (sink.isNone && !s.captureUsed) = true
    · have hcu : s.captureUsed = false := by
        have h2 := h
        simp only [Bool.and_eq_true, Bool.not_eq_true'] at h2
        exact h2.2
      have hslot := hInv hcu
      simp [Stdio.set_output_capture, h, hslot]
    · simp [Stdio.set_output_capture, h]

/-- Concrete instantiation of C2: capturing the bytes of "hello". -/
theorem C2_witness :
    Stdio.print_to [104, 101, 108, 108, 111]
        ((Stdio.set_output_capture (some ⟨false, []⟩) ⟨false, none, true⟩).2)
        [] none "stdout" =
      (⟨true, some ⟨false, [104, 101, 108, 108, 111]⟩, true⟩, [], .ok) ∧
    (Stdio.set_output_capture none ⟨false, none, true⟩).1 = none := by
  constructor
  · have h := C2_capture_intercepts_print.1 ⟨false, none, true⟩ ⟨false, []⟩
      [104, 101, 108, 108, 111] [] none "stdout" rfl
    simpa using h
  · exact C2_capture_intercepts_print.2 ⟨false, none, true⟩ none (fun _ => rfl)

/-- Claim C3: while a print drains into the capture sink, the slot is
emptied first (`take` removes the sink before the write), a recursive
print performed in that intermediate state sees an empty slot and falls
through to the real global stream, and the sink is put back (with the
bytes appended) only at the end of the drain. -/
theorem C3_slot_emptied_during_drain :
    ∀ (s : ThreadState) (w : LocalStream) (args args2 g g2 : List Byte)
      (gErr : Option IOErr) (label label2 : String),
      s.captureUsed = true → s.tlsAlive = true → s.slot = some w →
      ((s.take).1 = some w ∧ (s.take).2.slot = none) ∧
      Stdio.print_to args2 (s.take).2 g2 none label2 =
        ((s.take).2, g2 ++ args2, .ok) ∧
      Stdio.print_to args s g gErr label =
        (((s.take).2).set (some { w with val := w.val ++ args }), g, .ok) := by
  intro s w args args2 g g2 gErr label label2 hcu halive hslot
  cases s with
  | mk cu slot alive =>
    simp only [ThreadState.captureUsed, ThreadState.tlsAlive, ThreadState.slot]
      at hcu halive hslot
    subst hcu
    subst halive
    subst hslot
    refine ⟨⟨rfl, rfl⟩, ?_, ?_⟩
    · simp [Stdio.print_to, ThreadState.take, Stdio.writeToGlobal]
    · simp [Stdio.print_to, ThreadState.take, ThreadState.set, lock_ignore_poison]

/-- Concrete instantiation of C3: a drain into the sink with a recursive
print in the intermediate state. -/
theorem C3_witness :
    ((((⟨true, some ⟨false, [7]⟩, true⟩ : ThreadState).take).1 = some ⟨false, [7]⟩ ∧
      (((⟨true, some ⟨false, [7]⟩, true⟩ : ThreadState).take).2).slot = none) ∧
    Stdio.print_to [9] ((⟨true, some ⟨false, [7]⟩, true⟩ : ThreadState).take).2
        [1] none "stdout" =
      (((⟨true, some ⟨false, [7]⟩, true⟩ : ThreadState).take).2, [1, 9], .ok) ∧
    Stdio.print_to [8] ⟨true, some ⟨false, [7]⟩, true⟩ [1] none "stdout" =
      ((((⟨true, some ⟨false, [7]⟩, true⟩ : ThreadState).take).2).set
        (some ⟨false, [7, 8]⟩), [1], .ok)) := by
  exact C3_slot_emptied_during_drain ⟨true, some ⟨false, [7]⟩, true⟩ ⟨false, [7]⟩
    [8] [9] [1] [1] none "stdout" "stdout" rfl rfl rfl

/-- Claim C4: when no capture sink intercepts the output, a failing write
to the real global stream makes the print primitive panic with a message
naming the stream ("stdout" for `_print`, "stderr" for `_eprint`) and the
underlying error, while a successful write returns normally. -/
theorem C4_print_failure_panics :
    ∀ (args g : List Byte) (s : ThreadState) (e : IOErr),
      (s.captureUsed = false ∨ s.tlsAlive = false ∨ s.slot = none) →
      (Stdio.underscorePrint args s g (some e)).2.2 =
        .panicked ("failed printing to stdout: " ++ e.msg) ∧
      (Stdio.underscoreEprint args s g (some e)).2.2 =
        .panicked ("failed printing to stderr: " ++ e.msg) ∧
      Stdio.underscorePrint args s g none = (s, g ++ args, .ok) ∧
      Stdio.underscoreEprint args s g none = (s, g ++ args, .ok) := by
  intro args g s e hnc
  cases s with
  | mk cu slot alive =>
    simp only [ThreadState.captureUsed, ThreadState.tlsAlive, ThreadState.slot] at hnc
    rcases hnc with h | h | h
    · subst h
      simp [Stdio.underscorePrint, Stdio.underscoreEprint, Stdio.print_to,
        Stdio.writeToGlobal]
    · subst h
      simp [Stdio.underscorePrint, Stdio.underscoreEprint, Stdio.print_to,
        Stdio.writeToGlobal]
    · subst h
      cases cu <;> cases alive <;>
        simp [Stdio.underscorePrint, Stdio.underscoreEprint, Stdio.print_to,
          Stdio.writeToGlobal, ThreadState.take]

/-- Concrete instantiation of C4: a broken-pipe error on stdout panics
with the stream name and cause; a successful write returns normally. -/
theorem C4_witness :
    (Stdio.underscorePrint [10] ⟨false, none, true⟩ [] (some ⟨false, "broken pipe"⟩)).2.2 =
      .panicked "failed printing to stdout: broken pipe" ∧
    Stdio.underscorePrint [10] ⟨false, none, true⟩ [] none =
      (⟨false, none, true⟩, [10], .ok) := by
  have h := C4_print_failure_panics [10] [] ⟨false, none, true⟩
    ⟨false, "broken pipe"⟩ (Or.inl rfl)
  exact ⟨h.1, h.2.2.1⟩

/-- Claim C5: the `OUTPUT_CAPTURE_USED` fast path refines the unoptimised
algorithm that always consults the thread-local slot.  The invariant
"flag false → no sink installed" is established by `set_output_capture`
(which sets the flag before installing a sink and never clears it) and is
preserved by printing; under it, a print with the flag clear is equal to
the unoptimised print, and `set_output_capture none` with the flag clear
returns `none` and leaves the slot exactly as the unconditional
replacement would. -/
theorem C5_fast_path_refinement :
    (∀ (s : ThreadState) (sink : Option LocalStream),
      CaptureInv s → CaptureInv (Stdio.set_output_capture sink s).2) ∧
    (∀ (s : ThreadState) (args g : List Byte) (gErr : Option IOErr) (label : String),
      CaptureInv s → CaptureInv (Stdio.print_to args s g gErr label).1) ∧
    (∀ (s : ThreadState) (w : LocalStream),
      (Stdio.set_output_capture (some w) s).2.captureUsed = true) ∧
    (∀ (s : ThreadState) (sink : Option LocalStream),
      s.captureUsed = true → (Stdio.set_output_capture sink s).2.captureUsed = true) ∧
    (∀ (s : ThreadState) (args g : List Byte) (gErr : Option IOErr) (label : String),
      (Stdio.print_to args s g gErr label).1.captureUsed = s.captureUsed) ∧
    (∀ (s : ThreadState) (args g : List Byte) (gErr : Option IOErr) (label : String),
      CaptureInv s → s.captureUsed = false →
      Stdio.print_to args s g gErr label = Stdio.print_to_noflag args s g gErr label) ∧
    (∀ s : ThreadState, CaptureInv s → s.captureUsed = false →
      (Stdio.set_output_capture none s).1 = (Stdio.set_output_capture_noflag none s).1 ∧
      (Stdio.set_output_capture none s).2.slot =
        (Stdio.set_output_capture_noflag none s).2.slot) := by
  refine ⟨?_, ?_, ?_, ?_, ?_, ?_, ?_⟩
  · intro s sink hInv
    cases s with
    | mk cu slot alive =>
      cases cu <;> cases sink <;>
        simp_all [Stdio.set_output_capture, CaptureInv]
  · intro s args g gErr label hInv
    cases s with
    | mk cu slot alive =>
      cases cu <;> cases alive <;> cases slot <;>
        simp_all [Stdio.print_to, Stdio.writeToGlobal, ThreadState.take,
          ThreadState.set, CaptureInv] <;>
        cases gErr <;> simp [Stdio.writeToGlobal]
  · intro s w
    cases s with
    | mk cu slot alive => simp [Stdio.set_output_capture]
  · intro s sink h
    cases s with
    | mk cu slot alive =>
      simp only [ThreadState.captureUsed] at h
      subst h
      cases sink <;> simp [Stdio.set_output_capture]
  · intro s args g gErr label
    cases s with
    | mk cu slot alive =>
      cases cu <;> cases alive <;> cases slot <;>
        cases gErr <;>
        simp [Stdio.print_to, Stdio.writeToGlobal, ThreadState.take, ThreadState.set]
  · intro s args g gErr label hInv hcu
    cases s with
    | mk cu slot alive =>
      simp only [ThreadState.captureUsed] at hcu
      subst hcu
      have hslot : slot = none := hInv rfl
      subst hslot
      cases alive <;> cases gErr <;>
        simp [Stdio.print_to, Stdio.print_to_noflag, Stdio.writeToGlobal,
          ThreadState.take]
  · intro s hInv hcu
    cases s with
    | mk cu slot alive =>
      simp only [ThreadState.captureUsed] at hcu
      subst hcu
      have hslot : slot = none := hInv rfl
      subst hslot
      simp [Stdio.set_output_capture, Stdio.set_output_capture_noflag]

/-- Concrete instantiation of C5 at the initial thread state. -/
theorem C5_witness :
    CaptureInv (Stdio.set_output_capture none ⟨false, none, true⟩).2 ∧
    Stdio.print_to [1] ⟨false, none, true⟩ [] none "stdout" =
      Stdio.print_to_noflag [1] ⟨false, none, true⟩ [] none "stdout" ∧
    (Stdio.set_output_capture none ⟨false, none, true⟩).1 =
      (Stdio.set_output_capture_noflag none ⟨false, none, true⟩).1 := by
  refine ⟨?_, ?_, ?_⟩
  · exact C5_fast_path_refinement.1 ⟨false, none, true⟩ none (fun _ => rfl)
  · exact C5_fast_path_refinement.2.2.2.2.2.1 [1] [] none "stdout"
      (s := ⟨false, none, true⟩) (fun _ => rfl) rfl
  · exact (C5_fast_path_refinement.2.2.2.2.2.2 ⟨false, none, true⟩ (fun _ => rfl) rfl).1

/-- Claim C6: the shutdown hook only ever touches the stdout writer: it
leaves every other component of the process state unchanged, does nothing
at all when `STDOUT` was never initialised or when the non-blocking lock
attempt fails, and replaces the line writer by a zero-capacity one exactly
when the cell is initialised and the lock attempt succeeds. -/
theorem C6_cleanup_frame :
    ∀ p : ProcessState,
      ((Stdio.cleanup p).stdoutLocked = p.stdoutLocked ∧
       (Stdio.cleanup p).stderrBytes = p.stderrBytes ∧
       (Stdio.cleanup p).stdinState = p.stdinState ∧
       (Stdio.cleanup p).thread = p.thread) ∧
      (p.stdoutCell = none → Stdio.cleanup p = p) ∧
      (p.stdoutLocked = true → Stdio.cleanup p = p) ∧
      (∀ lw : LineWriter, p.stdoutCell = some lw → p.stdoutLocked = false →
        (Stdio.cleanup p).stdoutCell = some (LineWriter.with_capacity 0)) := by
  intro p
  cases p with
  | mk cell locked errBytes inState th =>
    refine ⟨?_, ?_, ?_, ?_⟩
    · cases cell <;> cases locked <;> simp [Stdio.cleanup]
    · intro h
      simp only [ProcessState.stdoutCell] at h
      subst h
      simp [Stdio.cleanup]
    · intro h
      simp only [ProcessState.stdoutLocked] at h
      subst h
      cases cell <;> simp [Stdio.cleanup]
    · intro lw hcell hlock
      simp only [ProcessState.stdoutCell] at hcell
      simp only [ProcessState.stdoutLocked] at hlock
      subst hcell
      subst hlock
      simp [Stdio.cleanup]

/-- Concrete instantiation of C6: an initialised, unlocked stdout is
degraded to capacity zero; a locked one is left alone. -/
theorem C6_witness :
    (Stdio.cleanup ⟨some ⟨512, [4]⟩, false, [], ⟨[]⟩, ⟨false, none, true⟩⟩).stdoutCell =
      some (LineWriter.with_capacity 0) ∧
    Stdio.cleanup ⟨some ⟨512, [4]⟩, true, [], ⟨[]⟩, ⟨false, none, true⟩⟩ =
      ⟨some ⟨512, [4]⟩, true, [], ⟨[]⟩, ⟨false, none, true⟩⟩ := by
  constructor
  · exact (C6_cleanup_frame ⟨some ⟨512, [4]⟩, false, [], ⟨[]⟩, ⟨false, none, true⟩⟩).2.2.2
      ⟨512, [4]⟩ rfl rfl
  · exact (C6_cleanup_frame ⟨some ⟨512, [4]⟩, true, [], ⟨[]⟩, ⟨false, none, true⟩⟩).2.2.1 rfl

/-- Claim C7: stdio locking is total with respect to poisoning:
`Stdin::lock` (and `Stdin::read_line`, which locks internally) recovers
the protected value even when a prior holder panicked while holding the
lock, and the capture-sink lock inside a print is recovered the same way,
so a print into a poisoned sink still succeeds. -/
theorem C7_poison_recovery :
    (∀ stdin : Stdin, stdin.lock = stdin.inner.val) ∧
    (∀ b : StdinBuf, Stdin.lock ⟨⟨true, b⟩⟩ = b) ∧
    (∀ (stdin : Stdin) (buf : List Byte),
      stdin.read_line buf = stdin.inner.val.read_line buf) ∧
    (∀ (s : ThreadState) (v args g : List Byte) (gErr : Option IOErr) (label : String),
      s.captureUsed = true → s.tlsAlive = true → s.slot = some ⟨true, v⟩ →
      Stdio.print_to args s g gErr label =
        ({ s with slot := some ⟨true, v ++ args⟩ }, g, .ok)) := by
  refine ⟨?_, ?_, ?_, ?_⟩
  · intro stdin
    simp [Stdin.lock, lock_ignore_poison]
  · intro b
    simp [Stdin.lock, lock_ignore_poison]
  · intro stdin buf
    simp [Stdin.read_line, Stdin.lock, lock_ignore_poison]
  · intro s v args g gErr label hcu halive hslot
    cases s with
    | mk cu slot alive =>
      simp only [ThreadState.captureUsed, ThreadState.tlsAlive, ThreadState.slot]
        at hcu halive hslot
      subst hcu
      subst halive
      subst hslot
      simp [Stdio.print_to, ThreadState.take, ThreadState.set, lock_ignore_poison]

/-- Concrete instantiation of C7: a poisoned stdin mutex still yields its
buffer, and a print into a poisoned sink still lands in the sink. -/
theorem C7_witness :
    Stdin.lock ⟨⟨true, ⟨[3]⟩⟩⟩ = ⟨[3]⟩ ∧
    Stdio.print_to [5] ⟨true, some ⟨true, [4]⟩, true⟩ [] none "stdout" =
      (⟨true, some ⟨true, [4, 5]⟩, true⟩, [], .ok) := by
  constructor
  · exact C7_poison_recovery.2.1 ⟨[3]⟩
  · have h := C7_poison_recovery.2.2.2 ⟨true, some ⟨true, [4]⟩, true⟩ [4] [5] []
      none "stdout" rfl rfl rfl
    simpa using h

/-- `handle_test_result` never changes the announced total. -/
theorem handle_test_result_total (st : ConsoleTestState) (c : CompletedTest) :
    (Console.handle_test_result st c).total = st.total := by
  obtain ⟨desc, result, out⟩ := c
  cases result <;> simp [Console.handle_test_result]

/-- Each completion event raises the five-counter sum by exactly one. -/
theorem handle_test_result_count (st : ConsoleTestState) (c : CompletedTest) :
    Console.current_test_count (Console.handle_test_result st c) =
      Console.current_test_count st + 1 := by
  obtain ⟨desc, result, out⟩ := c
  cases result <;>
    simp [Console.handle_test_result, Console.current_test_count] <;> omega

/-- Folding completion events adds their number to the counter sum. -/
theorem foldl_handle_count (cs : List CompletedTest) (st : ConsoleTestState) :
    Console.current_test_count (cs.foldl Console.handle_test_result st) =
      Console.current_test_count st + cs.length := by
  induction cs generalizing st with
  | nil => simp
  | cons c cs ih =>
    simp only [List.foldl_cons, ih, handle_test_result_count, List.length_cons]
    omega

/-- Folding completion events never changes the announced total. -/
theorem foldl_handle_total (cs : List CompletedTest) (st : ConsoleTestState) :
    (cs.foldl Console.handle_test_result st).total = st.total := by
  induction cs generalizing st with
  | nil => rfl
  | cons c cs ih => simp only [List.foldl_cons, ih, handle_test_result_total]

/-- Claim C8: every completion event increments exactly one of the five
counters by exactly one and appends the test identity and captured output
to the matching category list (ok to `not_failures`, failures to
`failures` — the message case first appending a `note:` suffix — and
time-limit failures to `time_failures`); hence after all events the sum of
the five counters is the number of completion events, and the runner's
final assertion holds iff that number equals the announced filtered
total. -/
theorem C8_reporter_fold :
    (∀ (st : ConsoleTestState) (c : CompletedTest),
      Console.current_test_count (Console.handle_test_result st c) =
        Console.current_test_count st + 1) ∧
    (∀ (st : ConsoleTestState) (c : CompletedTest),
      ((Console.handle_test_result st c).passed = st.passed ∨
        (Console.handle_test_result st c).passed = st.passed + 1) ∧
      ((Console.handle_test_result st c).failed = st.failed ∨
        (Console.handle_test_result st c).failed = st.failed + 1) ∧
      ((Console.handle_test_result st c).ignored = st.ignored ∨
        (Console.handle_test_result st c).ignored = st.ignored + 1) ∧
      ((Console.handle_test_result st c).allowed_fail = st.allowed_fail ∨
        (Console.handle_test_result st c).allowed_fail = st.allowed_fail + 1) ∧
      ((Console.handle_test_result st c).measured = st.measured ∨
        (Console.handle_test_result st c).measured = st.measured + 1)) ∧
    (∀ (st : ConsoleTestState) (c : CompletedTest),
      (c.result = .trOk →
        Console.handle_test_result st c =
          { st with passed := st.passed + 1,
                    not_failures := st.not_failures ++ [(c.desc, c.stdout)] }) ∧
      (c.result = .trIgnored →
        Console.handle_test_result st c = { st with ignored := st.ignored + 1 }) ∧
      (c.result = .trAllowedFail →
        Console.handle_test_result st c =
          { st with allowed_fail := st.allowed_fail + 1 }) ∧
      (∀ bs : BenchSamples, c.result = .trBench bs →
        Console.handle_test_result st c =
          { st with metrics := Console.insert_metric st.metrics c.desc.name bs.median
                      (bs.max - bs.min),
                    measured := st.measured + 1 }) ∧
      (c.result = .trFailed →
        Console.handle_test_result st c =
          { st with failed := st.failed + 1,
                    failures := st.failures ++ [(c.desc, c.stdout)] }) ∧
      (∀ msg : String, c.result = .trFailedMsg msg →
        Console.handle_test_result st c =
          { st with failed := st.failed + 1,
                    failures := st.failures ++
                      [(c.desc, c.stdout ++ "note: " ++ msg)] }) ∧
      (c.result = .trTimedFail →
        Console.handle_test_result st c =
          { st with failed := st.failed + 1,
                    time_failures := st.time_failures ++ [(c.desc, c.stdout)] })) ∧
    (∀ (st : ConsoleTestState) (cs : List CompletedTest),
      Console.current_test_count (cs.foldl Console.handle_test_result st) =
        Console.current_test_count st + cs.length) ∧
    (∀ (ts : List TestDesc) (cs : List CompletedTest),
      Console.current_test_count
          ((TestEvent.teFiltered ts :: cs.map TestEvent.teResult).foldl
            Console.on_test_event Console.newState) = cs.length ∧
      (Console.run_assertion
          ((TestEvent.teFiltered ts :: cs.map TestEvent.teResult).foldl
            Console.on_test_event Console.newState) ↔ cs.length = ts.length)) := by
  refine ⟨handle_test_result_count, ?_, ?_, fun st cs => foldl_handle_count cs st, ?_⟩
  · intro st c
    obtain ⟨desc, result, out⟩ := c
    cases result <;> simp [Console.handle_test_result]
  · intro st c
    obtain ⟨desc, result, out⟩ := c
    refine ⟨?_, ?_, ?_, ?_, ?_, ?_, ?_⟩ <;>
      (intro h; cases result <;> simp_all [Console.handle_test_result])
  · intro ts cs
    have hfold :
        (TestEvent.teFiltered ts :: cs.map TestEvent.teResult).foldl
            Console.on_test_event Console.newState =
          cs.foldl Console.handle_test_result
            { Console.newState with total := ts.length } := by
      simp only [List.foldl_cons]
      rw [List.foldl_map]
      rfl
    constructor
    · rw [hfold, foldl_handle_count]
      simp [Console.current_test_count, Console.newState]
    · rw [Console.run_assertion, hfold, foldl_handle_count, foldl_handle_total]
      simp [Console.current_test_count, Console.newState]

/-- Concrete instantiation of C8: a two-event suite whose announced total
matches its completion count. -/
theorem C8_witness :
    Console.handle_test_result Console.newState
        ⟨⟨"t1"⟩, .trFailedMsg "boom", "out"⟩ =
      { Console.newState with failed := 1,
                              failures := [(⟨"t1"⟩, "outnote: boom")] } ∧
    Console.current_test_count
        ((TestEvent.teFiltered [⟨"t1"⟩, ⟨"t2"⟩] ::
          ([⟨⟨"t1"⟩, .trFailedMsg "boom", "out"⟩,
            ⟨⟨"t2"⟩, .trOk, ""⟩] : List CompletedTest).map TestEvent.teResult).foldl
          Console.on_test_event Console.newState) = 2 := by
  constructor
  · have h := (C8_reporter_fold.2.2.1 Console.newState
      ⟨⟨"t1"⟩, .trFailedMsg "boom", "out"⟩).2.2.2.2.2.1 "boom" rfl
    simpa using h
  · exact (C8_reporter_fold.2.2.2.2 [⟨"t1"⟩, ⟨"t2"⟩]
      [⟨⟨"t1"⟩, .trFailedMsg "boom", "out"⟩, ⟨⟨"t2"⟩, .trOk, ""⟩]).1

/-- Splitting a `source = `-prefixed line at its first `=` yields exactly
the text from index 8 on (the first `=` of the prefix sits at index 7). -/
theorem splitOnce_source_line (t : List Char) :
    Extdeps.splitOnceChar '='
        ('s' :: 'o' :: 'u' :: 'r' :: 'c' :: 'e' :: ' ' :: '=' :: ' ' :: t) =
      some (['s', 'o', 'u', 'r', 'c', 'e', ' '], ' ' :: t) := rfl

/-- Dropping 8 characters of a `source = `-prefixed line leaves the text
after its first `=`. -/
theorem drop8_source_line (t : List Char) :
    ("source = ".data ++ t).drop 8 = ' ' :: t := rfl

/-- Claim C9: the dependency-provenance check reports a tidy error for a
line of `Cargo.lock` iff the line starts with `source = ` and the trimmed
value after the first `=` is neither the crates.io registry source nor the
pinned solana-labs compiler-builtins git source; lines without that prefix
never produce an error, and the whole-file check flags an error iff some
line does. -/
theorem C9_extdeps_source_check :
    (∀ line : List Char, ("source = ".data).isPrefixOf line = false →
      Extdeps.checkLine line = none) ∧
    (∀ line : List Char,
      (Extdeps.checkLine line).isSome = true ↔
        (("source = ".data).isPrefixOf line = true ∧
          String.mk (Extdeps.trimChars (line.drop 8)) ∉ Extdeps.ALLOWED_SOURCES)) ∧
    (∀ ls : List (List Char),
      Extdeps.check ls ≠ [] ↔ ∃ line ∈ ls, (Extdeps.checkLine line).isSome = true) := by
  refine ⟨?_, ?_, ?_⟩
  · intro line h
    simp [Extdeps.checkLine, h]
  · intro line
    cases hp : ("source = ".data).isPrefixOf line with
    | true =>
      have hpre : "source = ".data <+: line := List.isPrefixOf_iff_prefix.mp hp
      obtain ⟨t, ht⟩ := hpre
      subst ht
      rw [drop8_source_line]
      by_cases hmem :
          String.mk (Extdeps.trimChars (' ' :: t)) ∈ Extdeps.ALLOWED_SOURCES
      · have hc : Extdeps.ALLOWED_SOURCES.contains
            (String.mk (Extdeps.trimChars (' ' :: t))) = true :=
          List.elem_iff.mpr hmem
        simp [Extdeps.checkLine, hp, splitOnce_source_line, hc, hmem]
      · have hc : Extdeps.ALLOWED_SOURCES.contains
            (String.mk (Extdeps.trimChars (' ' :: t))) = false := by
          rw [Bool.eq_false_iff]
          intro hc
          exact hmem (List.elem_iff.mp hc)
        simp [Extdeps.checkLine, hp, splitOnce_source_line, hc, hmem]
    | false =>
      simp [Extdeps.checkLine, hp]
  · intro ls
    simp [Extdeps.check, List.filterMap_eq_nil_iff, Option.ne_none_iff_isSome]

/-- Concrete instantiation of C9: a non-source line is ignored, the
allowed registry source is accepted, and an unknown git source is
flagged. -/
theorem C9_witness :
    Extdeps.checkLine "name = \"serde\"".data = none ∧
    (Extdeps.checkLine
        "source = \"registry+https://github.com/rust-lang/crates.io-index\"".data).isSome
      = false ∧
    (Extdeps.checkLine "source = \"git+https://example.com/evil\"".data).isSome
      = true := by
  refine ⟨?_, ?_, ?_⟩
  · exact C9_extdeps_source_check.1 "name = \"serde\"".data rfl
  · have h := C9_extdeps_source_check.2.1
      "source = \"registry+https://github.com/rust-lang/crates.io-index\"".data
    rw [Bool.eq_false_iff]
    intro hs
    have hmem := (h.mp hs).2
    exact hmem (by decide)
  · exact (C9_extdeps_source_check.2.1
        "source = \"git+https://example.com/evil\"".data).mpr ⟨rfl, by decide⟩

/-- Claim C10: on the BPF target every standard-stream operation is
infallible and trivial: reads return `Ok 0` leaving the buffer untouched,
`read_exact` returns `Ok ()`, writes forward the bytes to the platform log
and claim the full buffer length, vectored writes return `Ok 0` (not the
summed chunk length), `write_fmt` discards its arguments, and
`set_output_capture` always returns `none`. -/
theorem C10_bpf_stubs :
    (∀ buf : List Byte, Bpf.Stdin.read buf = (.ok 0, buf)) ∧
    (∀ bufs : List (List Byte), Bpf.Stdin.read_vectored bufs = (.ok 0, bufs)) ∧
    (∀ buf : List Byte, Bpf.Stdin.read_to_end buf = (.ok 0, buf)) ∧
    (∀ buf : String, Bpf.Stdin.read_to_string buf = (.ok 0, buf)) ∧
    (∀ buf : List Byte, Bpf.Stdin.read_exact buf = (.ok (), buf)) ∧
    (∀ (log : List (List Byte)) (buf : List Byte),
      Bpf.Stdout.write log buf = (.ok buf.length, log ++ [buf])) ∧
    (∀ (log : List (List Byte)) (buf : List Byte),
      Bpf.Stderr.write log buf = (.ok buf.length, log ++ [buf])) ∧
    (∀ log bufs : List (List Byte),
      Bpf.Stdout.write_vectored log bufs = (.ok 0, log)) ∧
    (∀ log bufs : List (List Byte),
      Bpf.Stderr.write_vectored log bufs = (.ok 0, log)) ∧
    (∀ (log : List (List Byte)) (args : List Byte),
      Bpf.Stdout.write_fmt log args = (.ok (), log)) ∧
    (∀ (log : List (List Byte)) (args : List Byte),
      Bpf.Stderr.write_fmt log args = (.ok (), log)) ∧
    (Bpf.Stdout.write_vectored [] [[0], [1, 2]]).1 ≠ .ok 3 ∧
    (∀ sink : Option LocalStream, Bpf.set_output_capture sink = none) :=
  ⟨fun _ => rfl, fun _ => rfl, fun _ => rfl, fun _ => rfl, fun _ => rfl,
    fun _ _ => rfl, fun _ _ => rfl, fun _ _ => rfl, fun _ _ => rfl,
    fun _ _ => rfl, fun _ _ => rfl, by simp [Bpf.Stdout.write_vectored],
    fun _ => rfl⟩
